import Mathlib

/-!
Verification of the homebridge-tesla-powerwall core: the derived-state
engine (charging state, low-battery flag, grid-connection flag, grid
feeding/pulling sensors) and the resilient HTTP client (caching, 401/429
retry, authentication, polling teardown), shallowly embedded from the
TypeScript sources.
-/

namespace TeslaPowerwall

/-!
## JavaScript value helpers

Numeric fields read from JSON responses or from the plugin configuration
flow through the JavaScript idiom `x || d`: when the field is absent
(undefined) or equal to 0 (both falsy in JavaScript) the default `d` is
used, otherwise the value itself.  We model such a field as an
`Option ℚ` and the idiom as `jsOr`.
-/

/-- JavaScript `x || d` for a numeric field `x` that may be absent:
`undefined` and `0` are falsy, every other number is truthy. -/
def jsOr (x : Option ℚ) (d : ℚ) : ℚ :=
  match x with
  | none => d
  | some v => if v = 0 then d else v

/-!
## Derived-state engine

Embedded from `src/accessories/powerwall.ts`, `gridstatus.ts` and
`gridpowersensor.ts`.  The HomeKit characteristic constants follow the
code comments: ChargingState NOT_CHARGING = 0, CHARGING = 1;
StatusLowBattery BATTERY_LEVEL_NORMAL = 0, BATTERY_LEVEL_LOW = 1.
-/

def CHARGING_STATE_NOT_CHARGING : ℕ := 0

def CHARGING_STATE_CHARGING : ℕ := 1

def STATUS_LOW_BATTERY_NORMAL : ℕ := 0

def STATUS_LOW_BATTERY_LOW : ℕ := 1

/-- PowerwallAccessory.getChargingState (powerwall.ts lines 68-86):
reads `data.battery?.instant_power || 0` and reports
`CHARGING` when `batteryPower > 50`, `NOT_CHARGING` otherwise. -/
def getChargingState (batteryInstantPower : Option ℚ) : ℕ :=
  let batteryPower := jsOr batteryInstantPower 0
  if batteryPower > 50 then CHARGING_STATE_CHARGING
  else CHARGING_STATE_NOT_CHARGING

/-- PowerwallAccessory.getStatusLowBattery (powerwall.ts lines 91-107):
`batteryLevel = data.percentage || 50`,
`lowBatteryThreshold = config.lowBattery || 20`, and the flag is
`batteryLevel <= lowBatteryThreshold`. -/
def getStatusLowBattery (percentage : Option ℚ) (configLowBattery : Option ℚ) : ℕ :=
  let batteryLevel := jsOr percentage 50
  let lowBatteryThreshold := jsOr configLowBattery 20
  if batteryLevel ≤ lowBatteryThreshold then STATUS_LOW_BATTERY_LOW
  else STATUS_LOW_BATTERY_NORMAL

/-- GridStatusAccessory.getGridStatus (gridstatus.ts line 53):
`data.grid_status === "SystemGridConnected"`; an absent field compares
unequal, like `undefined` in JavaScript. -/
def isGridConnected (grid_status : Option String) : Bool :=
  grid_status == some "SystemGridConnected"

/-- Sensor flavor of a GridPowerSensorAccessory (gridpowersensor.ts). -/
inductive SensorType where
  | feeding
  | pulling
deriving DecidableEq

/-- GridPowerSensorAccessory.getSensorState, condition part
(gridpowersensor.ts lines 63-71): feeding fires when
`sitePower < -threshold`, pulling when `sitePower > threshold`. -/
def isConditionMet (sensorType : SensorType) (sitePower threshold : ℚ) : Bool :=
  match sensorType with
  | .feeding => sitePower < -threshold
  | .pulling => sitePower > threshold

/-- GridPowerSensorAccessory.getSensorState (gridpowersensor.ts lines
55-84): `sitePower = data.site?.instant_power || 0`,
`threshold = config.gridSensorThreshold || 50`, then `isConditionMet`. -/
def getSensorState (sensorType : SensorType)
    (siteInstantPower configGridSensorThreshold : Option ℚ) : Bool :=
  let sitePower := jsOr siteInstantPower 0
  let threshold := jsOr configGridSensorThreshold 50
  isConditionMet sensorType sitePower threshold

/-!
## Resilient HTTP client

Embedded from the modernized `HttpClient` (executeRequestWithRetry /
makeRequest / ensureAuthenticated / destroy).  A request run is driven by
a script: the list of transport responses the gateway returns, consumed
one per send.  Authentication is modelled as succeeding and installing a
fresh cookie string `authCookie`; the model counts how many times
`authenticate()` is invoked (each invocation is one POST to the login
endpoint) and records every sleep the executor performs, so the retry
claims can be stated as exact counts.
-/

/-- One transport response: HTTP status, the parsed `retry-after` header
in seconds when present, the `set-cookie` header when present, and an
abstract payload identifier standing for the JSON body. -/
structure HttpResponse where
  status : ℕ
  retryAfter : Option ℕ
  setCookie : Option String
  body : ℕ
deriving DecidableEq

/-- `response.ok` of fetch: status in the range 200-299. -/
def responseOk (r : HttpResponse) : Bool :=
  decide (200 ≤ r.status) && decide (r.status < 300)

/-- Errors thrown by the executor: a generic HTTP status error
(`throw new Error("HTTP status: ...")`), the hard failure thrown when a
429 arrives on a retried request
(`throw new Error("Rate limit retry failed")`), and a model artifact for
an exhausted response script. -/
inductive ReqError where
  | httpStatus (status : ℕ)
  | rateLimitRetryFailed
  | noResponse
deriving DecidableEq

/-- Mutable client state threaded through a request: the stored session
cookie string (empty string means no session), the response cache as an
association list from URL to payload and store time, and the current
clock in milliseconds (`Date.now()`). -/
structure ClientState where
  sessionCookies : String
  cache : List (String × ℕ × ℕ)
  now : ℕ
deriving DecidableEq

/-- Lookup in the cache `Map` keyed by URL. -/
def cacheGet (cache : List (String × ℕ × ℕ)) (url : String) : Option (ℕ × ℕ) :=
  match cache with
  | [] => none
  | (k, d, t) :: rest => if k = url then some (d, t) else cacheGet rest url

/-- `cache.set(url, { data, timestamp })`: replace the entry for `url`
or append a new one. -/
def cacheSet (cache : List (String × ℕ × ℕ)) (url : String) (d t : ℕ) :
    List (String × ℕ × ℕ) :=
  match cache with
  | [] => [(url, d, t)]
  | (k, dd, tt) :: rest =>
    if k = url then (url, d, t) :: rest else (k, dd, tt) :: cacheSet rest url d t

/-- extractAndStoreCookies: from a single `set-cookie` header string,
keep the part before the first attribute separator, trimmed; the stored
session becomes the join of the nonempty pairs (empty when none). -/
def extractCookiePair (header : String) : String :=
  ((header.splitOn ";").headD "").trim

/-- Session cookies after a successful login response: when a
`set-cookie` header is present the stored value is rebuilt from it,
otherwise the stored value is left unchanged (the code only logs a
warning). -/
def storeCookies (r : HttpResponse) (old : String) : String :=
  match r.setCookie with
  | none => old
  | some h =>
    String.intercalate "; " ((if (extractCookiePair h).length > 0
      then [extractCookiePair h] else []))

/-- Outcome of a request run: the value returned or error thrown, the
number of transport sends for the request URL, the number of
`authenticate()` invocations (login POSTs), the sleep durations
performed in milliseconds, and the final client state. -/
structure ExecOutcome where
  result : Except ReqError ℕ
  sends : ℕ
  auths : ℕ
  waits : List ℕ
  state : ClientState

/-- HttpClient.executeRequestWithRetry (part of the modernized client):
consumes one scripted response per send.  A 429 on a fresh request
sleeps `(retry-after or 30) * 1000` milliseconds and retries once; a 429
on a retried request throws.  A 401 on a fresh non-login request invokes
`authenticate()` (modelled as installing `authCookie`) and retries once;
any other non-ok status, including a 401 on a retried request, throws an
HTTP status error.  On success a login response stores its cookies, and
a GET with a nonzero cache interval stores the payload in the cache. -/
def execWithRetry (isLogin isGET : Bool) (url authCookie : String)
    (cacheInterval : ℕ) :
    List HttpResponse → Bool → ClientState → ExecOutcome
  | [], _, st =>
    { result := .error .noResponse, sends := 0, auths := 0, waits := [], state := st }
  | r :: rest, isRetry, st =>
    if r.status = 429 then
      if isRetry then
        { result := .error .rateLimitRetryFailed, sends := 1, auths := 0,
          waits := [], state := st }
      else
        let waitMs := (r.retryAfter.getD 30) * 1000
        let st2 : ClientState := { st with now := st.now + waitMs }
        let out := execWithRetry isLogin isGET url authCookie cacheInterval rest true st2
        { out with sends := out.sends + 1, waits := waitMs :: out.waits }
    else if r.status = 401 ∧ isRetry = false ∧ isLogin = false then
      let st2 : ClientState := { st with sessionCookies := authCookie }
      let out := execWithRetry isLogin isGET url authCookie cacheInterval rest true st2
      { out with sends := out.sends + 1, auths := out.auths + 1 }
    else if responseOk r = false then
      { result := .error (.httpStatus r.status), sends := 1, auths := 0,
        waits := [], state := st }
    else
      let st2 : ClientState :=
        if isLogin then { st with sessionCookies := storeCookies r st.sessionCookies }
        else st
      let st3 : ClientState :=
        if isGET ∧ cacheInterval ≠ 0 then
          { st2 with cache := cacheSet st2.cache url r.body st2.now }
        else st2
      { result := .ok r.body, sends := 1, auths := 0, waits := [], state := st3 }

/-- HttpClient.makeRequest: for a GET with a nonzero cache interval,
return the cached payload when `now - storedAt < cacheInterval` without
touching the transport; otherwise ensure a session exists (for non-login
endpoints, an empty session triggers one `authenticate()` invocation)
and run `execWithRetry` on the scripted responses. -/
def makeRequest (isGET : Bool) (endpoint : String) (cacheInterval : ℕ)
    (authCookie : String) (responses : List HttpResponse)
    (st : ClientState) : ExecOutcome :=
  let isLogin : Bool := endpoint = "/api/login/Basic"
  let hit : Option ℕ :=
    if isGET ∧ cacheInterval ≠ 0 then
      match cacheGet st.cache endpoint with
      | some (d, t) => if st.now - t < cacheInterval then some d else none
      | none => none
    else none
  match hit with
  | some d =>
    { result := .ok d, sends := 0, auths := 0, waits := [], state := st }
  | none =>
    if isLogin = false ∧ st.sessionCookies = "" then
      let st2 : ClientState := { st with sessionCookies := authCookie }
      let out := execWithRetry isLogin isGET endpoint authCookie cacheInterval
        responses false st2
      { out with auths := out.auths + 1 }
    else
      execWithRetry isLogin isGET endpoint authCookie cacheInterval responses false st

/-!
## Concurrent authentication (cooperative interleaving)

HttpClient.ensureAuthenticated reads `this.sessionCookies` and, when it
is empty, awaits `this.authenticate()` directly — it does not go through
`authenticateWithRateLimit`, so the `authInProgress` single-flight guard
is neither consulted nor set on this path.  We model two requests
running ensureAuthenticated under the cooperative scheduling the runtime
provides: the check plus the issuing of the login POST is one atomic
step (the code suspends only at the network call inside
`authenticate()`), and the arrival of the login response is a second
step that stores the extracted cookies.
-/

/-- Program counter of one request inside ensureAuthenticated. -/
inductive AuthPc where
  | start
  | waitingLogin
  | done
deriving DecidableEq

/-- Shared client state plus the two requests.  `authInProgress` is the
single-flight guard field of the client; the direct `authenticate()`
call in ensureAuthenticated never reads or writes it.  `loginPosts`
counts POSTs to the login endpoint. -/
structure ConcState where
  sessionCookies : String
  authInProgress : Bool
  loginPosts : ℕ
  pc1 : AuthPc
  pc2 : AuthPc
deriving DecidableEq

/-- One cooperative step of ensureAuthenticated for a request at `pc`:
at `start` the session is checked and, when empty, `authenticate()` is
entered, issuing a login POST and suspending; at `waitingLogin` the
login response arrives and the session cookies are stored. -/
def ensureAuthStep (authCookie : String) (pc : AuthPc) (s : ConcState) :
    AuthPc × ConcState :=
  match pc with
  | .start =>
    if s.sessionCookies = "" then
      (.waitingLogin, { s with loginPosts := s.loginPosts + 1 })
    else
      (.done, s)
  | .waitingLogin =>
    (.done, { s with sessionCookies := authCookie })
  | .done => (.done, s)

/-- Run one step of request 1 (`true`) or request 2 (`false`). -/
def concStep (authCookie : String) (s : ConcState) (who : Bool) : ConcState :=
  if who then
    let p := ensureAuthStep authCookie s.pc1 s
    { p.2 with pc1 := p.1 }
  else
    let p := ensureAuthStep authCookie s.pc2 s
    { p.2 with pc2 := p.1 }

/-- Run a cooperative schedule, one request id per step. -/
def runSchedule (authCookie : String) : List Bool → ConcState → ConcState
  | [], s => s
  | w :: rest, s => runSchedule authCookie rest (concStep authCookie s w)

/-- Initial state for two fresh concurrent requests: no session, no
authentication in flight, no login POSTs issued yet. -/
def concInit : ConcState :=
  { sessionCookies := "", authInProgress := false, loginPosts := 0,
    pc1 := .start, pc2 := .start }

/-!
## Polling schedulers and teardown

Timers are modelled as an arena: `setInterval` hands out a fresh handle
and marks it active; `clearInterval` deactivates it; a scheduled tick of
a timer fires exactly when its handle is still active.
GridStatusAccessory.startPolling (gridstatus.ts lines 73-84) calls
`setInterval` without binding the returned handle to any field, and the
class declares no destroy method, so teardown of the accessory has no
handle to cancel.  PowerwallAccessory, by contrast, stores the handle in
`pollingIntervalId` and its destroy clears it.
-/

/-- Arena of interval timers: the next fresh handle and the handles
still active. -/
structure TimerArena where
  nextId : ℕ
  active : List ℕ
deriving DecidableEq

/-- `setInterval`: returns a fresh handle and marks it active. -/
def setIntervalA (a : TimerArena) : ℕ × TimerArena :=
  (a.nextId, { nextId := a.nextId + 1, active := a.active ++ [a.nextId] })

/-- `clearInterval h`: deactivates the handle. -/
def clearIntervalA (a : TimerArena) (h : ℕ) : TimerArena :=
  { a with active := a.active.filter (fun i => decide (i ≠ h)) }

/-- The handle a GridStatusAccessory retains for its polling interval.
The class has no field for it: startPolling discards the value
`setInterval` returns. -/
structure GridStatusAccessory where
  retainedHandle : Option ℕ
deriving DecidableEq

/-- GridStatusAccessory.startPolling: registers the interval timer and
retains no handle to it. -/
def gridStatusStartPolling (a : TimerArena) : GridStatusAccessory × TimerArena :=
  let p := setIntervalA a
  ({ retainedHandle := none }, p.2)

/-- Teardown of a GridStatusAccessory cancels exactly the handles the
instance retained; the class declares no destroy method, so there is
nothing to cancel. -/
def gridStatusTeardown (acc : GridStatusAccessory) (a : TimerArena) : TimerArena :=
  match acc.retainedHandle with
  | some h => clearIntervalA a h
  | none => a

/-- PowerwallAccessory polling state: `pollingIntervalId` field. -/
structure PowerwallAccessoryTimers where
  pollingIntervalId : Option ℕ
deriving DecidableEq

/-- PowerwallAccessory.startPolling: stores the interval handle. -/
def powerwallStartPolling (a : TimerArena) : PowerwallAccessoryTimers × TimerArena :=
  let p := setIntervalA a
  ({ pollingIntervalId := some p.1 }, p.2)

/-- PowerwallAccessory.destroy: clears the stored interval handle. -/
def powerwallDestroy (acc : PowerwallAccessoryTimers) (a : TimerArena) :
    PowerwallAccessoryTimers × TimerArena :=
  match acc.pollingIntervalId with
  | some h => ({ pollingIntervalId := none }, clearIntervalA a h)
  | none => (acc, a)

/-- A scheduled tick of timer `h` fires iff the handle is still active.
Each GridStatusAccessory tick invokes the Transport (a getGridStatus
request). -/
def tickFires (a : TimerArena) (h : ℕ) : Bool :=
  a.active.contains h

/-!
## Claims about the derived-state engine
-/

/-- C1: the spec states that battery power strictly above the 50 W noise
floor yields NOT_CHARGING and at or below the floor yields CHARGING.
The code does the opposite: at battery power 51 W (discharging, per the
sign convention of the gateway and of the repository validation script)
getChargingState reports CHARGING, not NOT_CHARGING. -/
theorem getChargingState_flipped_polarity :
    getChargingState (some 51) = CHARGING_STATE_CHARGING ∧
    getChargingState (some 51) ≠ CHARGING_STATE_NOT_CHARGING := by
  constructor
  · norm_num [getChargingState, jsOr, CHARGING_STATE_CHARGING]
  · norm_num [getChargingState, jsOr, CHARGING_STATE_CHARGING,
      CHARGING_STATE_NOT_CHARGING]

/-- C2: for every site power and every threshold at least 0, site power
above the threshold makes exactly the pulling sensor fire, site power
below the negated threshold makes exactly the feeding sensor fire, and
inside the dead-zone both sensors are off — so the two sensors are never
simultaneously on. -/
theorem isConditionMet_threshold_cases (sitePower threshold : ℚ)
    (h : 0 ≤ threshold) :
    (sitePower > threshold →
      isConditionMet .pulling sitePower threshold = true ∧
      isConditionMet .feeding sitePower threshold = false) ∧
    (sitePower < -threshold →
      isConditionMet .feeding sitePower threshold = true ∧
      isConditionMet .pulling sitePower threshold = false) ∧
    (-threshold ≤ sitePower → sitePower ≤ threshold →
      isConditionMet .feeding sitePower threshold = false ∧
      isConditionMet .pulling sitePower threshold = false) := by
  simp only [isConditionMet, decide_eq_true_eq, decide_eq_false_iff_not, not_lt]
  exact ⟨fun hp => ⟨hp, by linarith⟩,
    fun hf => ⟨hf, by linarith⟩,
    fun h1 h2 => ⟨by linarith, by linarith⟩⟩

/-- Witness for C2 at sitePower 51, threshold 50. -/
theorem isConditionMet_threshold_cases_witness :
    isConditionMet .pulling 51 50 = true ∧
    isConditionMet .feeding 51 50 = false :=
  (isConditionMet_threshold_cases 51 50 (by norm_num)).1 (by norm_num)

/-- C6: the derived grid-connected flag is true exactly when the
grid_status field is present and equals the string SystemGridConnected;
every other value, the empty string and an absent field included, yields
not connected. -/
theorem isGridConnected_iff_exact (g : Option String) :
    isGridConnected g = true ↔ g = some "SystemGridConnected" := by
  cases g with
  | none => simp [isGridConnected]
  | some s => simp [isGridConnected]

/-- C7 counterexample: at percentage 0 with lowBatteryPercent 20 the
code reports BATTERY_LEVEL_NORMAL although 0 is at most 20, because the
JavaScript idiom `data.percentage || 50` replaces the falsy value 0 with
the default 50 before the comparison. -/
theorem getStatusLowBattery_zero_percentage :
    getStatusLowBattery (some 0) (some 20) = STATUS_LOW_BATTERY_NORMAL ∧
    (0 : ℚ) ≤ 20 := by
  constructor
  · norm_num [getStatusLowBattery, jsOr, STATUS_LOW_BATTERY_NORMAL,
      STATUS_LOW_BATTERY_LOW]
  · norm_num

/-- C7 amended: for every nonzero percentage and every nonzero
configured lowBatteryPercent, the low-battery flag is reported exactly
when percentage is at most lowBatteryPercent (percentage 20 with
threshold 20 gives low, percentage 21 gives normal); a zero or absent
value is replaced by its default (50, resp. 20) before the comparison. -/
theorem getStatusLowBattery_iff_nonzero (p t : ℚ) (hp : p ≠ 0) (ht : t ≠ 0) :
    getStatusLowBattery (some p) (some t) = STATUS_LOW_BATTERY_LOW ↔ p ≤ t := by
  simp only [getStatusLowBattery, jsOr, if_neg hp, if_neg ht]
  split_ifs with hle
  · simp [STATUS_LOW_BATTERY_LOW, hle]
  · simp [STATUS_LOW_BATTERY_LOW, STATUS_LOW_BATTERY_NORMAL, hle]

/-- Witness for C7 amended at percentage 20, lowBatteryPercent 20. -/
theorem getStatusLowBattery_iff_nonzero_witness :
    getStatusLowBattery (some 20) (some 20) = STATUS_LOW_BATTERY_LOW :=
  (getStatusLowBattery_iff_nonzero 20 20 (by norm_num) (by norm_num)).mpr
    (by norm_num)

/-- C10: a gridSensorThreshold configured as 0 or omitted is replaced by
the default 50 by the `config.gridSensorThreshold || 50` idiom, so the
sensor computation behaves exactly as with a configured threshold of 50
and a dead-zone of width 0 is never in effect. -/
theorem gridThreshold_zero_defaults (cfg : Option ℚ)
    (h : cfg = none ∨ cfg = some 0) (typ : SensorType) (sp : Option ℚ) :
    jsOr cfg 50 = 50 ∧
    getSensorState typ sp cfg = getSensorState typ sp (some 50) := by
  have h50 : jsOr cfg 50 = 50 := by
    rcases h with h | h <;> simp [h, jsOr]
  refine ⟨h50, ?_⟩
  have h50b : jsOr (some 50) 50 = 50 := by norm_num [jsOr]
  simp only [getSensorState, h50, h50b]

/-- Witness for C10 at a configured threshold of exactly 0. -/
theorem gridThreshold_zero_defaults_witness :
    jsOr (some 0) 50 = 50 ∧
    getSensorState .pulling (some 51) (some 0) =
      getSensorState .pulling (some 51) (some 50) :=
  gridThreshold_zero_defaults (some 0) (Or.inr rfl) .pulling (some 51)

/-!
## Claims about the resilient request executor
-/

/-- On a retried request (isRetry already set) the executor performs
exactly one transport send and never authenticates, sleeps or retries
again: a 429 throws the rate-limit hard failure, a 401 falls through to
the generic HTTP status error, and for a non-login request the stored
session is left untouched. -/
theorem execWithRetry_retried_step (isLogin isGET : Bool) (url ck : String)
    (ttl : ℕ) (r : HttpResponse) (rest : List HttpResponse) (st : ClientState) :
    (execWithRetry isLogin isGET url ck ttl (r :: rest) true st).sends = 1 ∧
    (execWithRetry isLogin isGET url ck ttl (r :: rest) true st).auths = 0 ∧
    (execWithRetry isLogin isGET url ck ttl (r :: rest) true st).waits = [] ∧
    (isLogin = false →
      (execWithRetry isLogin isGET url ck ttl (r :: rest) true st).state.sessionCookies
        = st.sessionCookies) ∧
    (r.status = 429 →
      (execWithRetry isLogin isGET url ck ttl (r :: rest) true st).result
        = Except.error ReqError.rateLimitRetryFailed) ∧
    (r.status = 401 →
      (execWithRetry isLogin isGET url ck ttl (r :: rest) true st).result
        = Except.error (ReqError.httpStatus 401)) := by
  by_cases h429 : r.status = 429
  · simp [execWithRetry, h429]
  · by_cases h401 : r.status = 401
    · have hok : responseOk r = false := by simp [responseOk, h401]
      simp [execWithRetry, h429, h401, hok]
    · by_cases hok : responseOk r = true
      · refine ⟨?_, ?_, ?_, ?_, ?_, ?_⟩
        case _ => simp [execWithRetry, h429, h401, hok]
        case _ => simp [execWithRetry, h429, h401, hok]
        case _ => simp [execWithRetry, h429, h401, hok]
        case _ =>
          intro hl
          simp only [execWithRetry, h429, h401, hok]
          split_ifs <;> simp_all
        case _ => simp [execWithRetry, h429, h401, hok]
        case _ => simp [execWithRetry, h429, h401, hok]
      · rw [Bool.not_eq_true] at hok
        simp [execWithRetry, h429, h401, hok]

/-- One-step unfolding of the executor at a first 401 on a non-login
request: the stored session is replaced by the fresh cookie, one
authentication is counted, and the executor recurses on the remaining
script with the retry flag set. -/
theorem execWithRetry_401_unfold (isGET : Bool) (url ck : String) (ttl : ℕ)
    (r1 : HttpResponse) (rs : List HttpResponse) (st : ClientState)
    (h1 : r1.status = 401) :
    execWithRetry false isGET url ck ttl (r1 :: rs) false st =
      { execWithRetry false isGET url ck ttl rs true
          { st with sessionCookies := ck } with
        sends := (execWithRetry false isGET url ck ttl rs true
          { st with sessionCookies := ck }).sends + 1,
        auths := (execWithRetry false isGET url ck ttl rs true
          { st with sessionCookies := ck }).auths + 1 } := by
  have h429 : ¬(r1.status = 429) := by omega
  simp [execWithRetry, h1, h429]

/-- One-step unfolding of the executor at a first 429: the clock
advances by the retry-after delay (default 30 s), the delay is recorded,
and the executor recurses on the remaining script with the retry flag
set. -/
theorem execWithRetry_429_unfold (isLogin isGET : Bool) (url ck : String)
    (ttl : ℕ) (r1 : HttpResponse) (rs : List HttpResponse) (st : ClientState)
    (h1 : r1.status = 429) :
    execWithRetry isLogin isGET url ck ttl (r1 :: rs) false st =
      { execWithRetry isLogin isGET url ck ttl rs true
          { st with now := st.now + r1.retryAfter.getD 30 * 1000 } with
        sends := (execWithRetry isLogin isGET url ck ttl rs true
          { st with now := st.now + r1.retryAfter.getD 30 * 1000 }).sends + 1,
        waits := r1.retryAfter.getD 30 * 1000 ::
          (execWithRetry isLogin isGET url ck ttl rs true
            { st with now := st.now + r1.retryAfter.getD 30 * 1000 }).waits } := by
  simp [execWithRetry, h1]

/-- C3: a first 401 on a non-login request triggers exactly one
`authenticate()` invocation and exactly one retry (two transport sends
in total, the rest of the script untouched); the stored session ends up
replaced by the freshly obtained cookie; and when the retried request
also answers 401, the executor surfaces the terminal HTTP status error
instead of retrying or re-authenticating again. -/
theorem executeRequestWithRetry_401_single_retry (isGET : Bool)
    (url ck : String) (ttl : ℕ) (r1 r2 : HttpResponse)
    (rest : List HttpResponse) (st : ClientState) (h1 : r1.status = 401) :
    (execWithRetry false isGET url ck ttl (r1 :: r2 :: rest) false st).auths = 1 ∧
    (execWithRetry false isGET url ck ttl (r1 :: r2 :: rest) false st).sends = 2 ∧
    (execWithRetry false isGET url ck ttl
        (r1 :: r2 :: rest) false st).state.sessionCookies = ck ∧
    (r2.status = 401 →
      (execWithRetry false isGET url ck ttl (r1 :: r2 :: rest) false st).result
        = Except.error (ReqError.httpStatus 401)) := by
  obtain ⟨hs, ha, hw, hsess, hr429, hr401⟩ :=
    execWithRetry_retried_step false isGET url ck ttl r2 rest
      { st with sessionCookies := ck }
  rw [execWithRetry_401_unfold isGET url ck ttl r1 (r2 :: rest) st h1]
  refine ⟨?_, ?_, ?_, fun h2 => ?_⟩
  · simp [ha]
  · simp [hs]
  · simpa using hsess rfl
  · simpa using hr401 h2

/-- Witness for C3: both scripted responses are 401; the run performs
one authentication, two sends, installs the fresh cookie and surfaces
the HTTP 401 error. -/
theorem executeRequestWithRetry_401_single_retry_witness :
    (execWithRetry false true "/api/meters/aggregates" "tok" 0
        (⟨401, none, none, 0⟩ :: ⟨401, none, none, 1⟩ :: []) false
        ⟨"old", [], 0⟩).auths = 1 ∧
    (execWithRetry false true "/api/meters/aggregates" "tok" 0
        (⟨401, none, none, 0⟩ :: ⟨401, none, none, 1⟩ :: []) false
        ⟨"old", [], 0⟩).sends = 2 ∧
    (execWithRetry false true "/api/meters/aggregates" "tok" 0
        (⟨401, none, none, 0⟩ :: ⟨401, none, none, 1⟩ :: []) false
        ⟨"old", [], 0⟩).state.sessionCookies = "tok" ∧
    (execWithRetry false true "/api/meters/aggregates" "tok" 0
        (⟨401, none, none, 0⟩ :: ⟨401, none, none, 1⟩ :: []) false
        ⟨"old", [], 0⟩).result = Except.error (ReqError.httpStatus 401) := by
  obtain ⟨ha, hs, hsess, hres⟩ :=
    executeRequestWithRetry_401_single_retry true "/api/meters/aggregates"
      "tok" 0 ⟨401, none, none, 0⟩ ⟨401, none, none, 1⟩ [] ⟨"old", [], 0⟩ rfl
  exact ⟨ha, hs, hsess, hres rfl⟩

/-- C4: a first 429 makes the executor sleep for exactly the number of
seconds in the retry-after header (30 when the header is absent) and
retry exactly once (two transport sends in total, no authentication);
when the retried request also answers 429, the hard rate-limit failure
is surfaced and nothing is retried further. -/
theorem executeRequestWithRetry_429_single_retry (isLogin isGET : Bool)
    (url ck : String) (ttl : ℕ) (r1 r2 : HttpResponse)
    (rest : List HttpResponse) (st : ClientState) (h1 : r1.status = 429) :
    (execWithRetry isLogin isGET url ck ttl (r1 :: r2 :: rest) false st).waits
      = [r1.retryAfter.getD 30 * 1000] ∧
    (execWithRetry isLogin isGET url ck ttl (r1 :: r2 :: rest) false st).sends = 2 ∧
    (execWithRetry isLogin isGET url ck ttl (r1 :: r2 :: rest) false st).auths = 0 ∧
    (r2.status = 429 →
      (execWithRetry isLogin isGET url ck ttl (r1 :: r2 :: rest) false st).result
        = Except.error ReqError.rateLimitRetryFailed) := by
  obtain ⟨hs, ha, hw, hsess, hr429, hr401⟩ :=
    execWithRetry_retried_step isLogin isGET url ck ttl r2 rest
      { st with now := st.now + r1.retryAfter.getD 30 * 1000 }
  rw [execWithRetry_429_unfold isLogin isGET url ck ttl r1 (r2 :: rest) st h1]
  refine ⟨?_, ?_, ?_, fun h2 => ?_⟩
  · simp [hw]
  · simp [hs]
  · simp [ha]
  · simpa using hr429 h2

/-- Witness for C4: both scripted responses are 429 with a retry-after
of 7 seconds on the first; the run waits 7000 ms, sends twice and
surfaces the hard rate-limit failure. -/
theorem executeRequestWithRetry_429_single_retry_witness :
    (execWithRetry false true "/api/system_status/soe" "tok" 0
        (⟨429, some 7, none, 0⟩ :: ⟨429, none, none, 1⟩ :: []) false
        ⟨"tok", [], 0⟩).waits = [7000] ∧
    (execWithRetry false true "/api/system_status/soe" "tok" 0
        (⟨429, some 7, none, 0⟩ :: ⟨429, none, none, 1⟩ :: []) false
        ⟨"tok", [], 0⟩).sends = 2 ∧
    (execWithRetry false true "/api/system_status/soe" "tok" 0
        (⟨429, some 7, none, 0⟩ :: ⟨429, none, none, 1⟩ :: []) false
        ⟨"tok", [], 0⟩).auths = 0 ∧
    (execWithRetry false true "/api/system_status/soe" "tok" 0
        (⟨429, some 7, none, 0⟩ :: ⟨429, none, none, 1⟩ :: []) false
        ⟨"tok", [], 0⟩).result = Except.error ReqError.rateLimitRetryFailed := by
  obtain ⟨hw, hs, ha, hres⟩ :=
    executeRequestWithRetry_429_single_retry false true "/api/system_status/soe"
      "tok" 0 ⟨429, some 7, none, 0⟩ ⟨429, none, none, 1⟩ [] ⟨"tok", [], 0⟩ rfl
  exact ⟨hw, hs, ha, hres rfl⟩

/-- Storing an entry makes it the one found for its URL. -/
theorem cacheGet_cacheSet (c : List (String × ℕ × ℕ)) (u : String) (d t : ℕ) :
    cacheGet (cacheSet c u d t) u = some (d, t) := by
  induction c with
  | nil => simp [cacheSet, cacheGet]
  | cons hd tl ih =>
    obtain ⟨k, dd, tt⟩ := hd
    by_cases hk : k = u
    · simp [cacheSet, cacheGet, hk]
    · simp [cacheSet, cacheGet, hk, ih]

/-- A successful (2xx) response on a fresh GET with a nonzero cache
interval performs one send, no authentication and no sleep, and stores
the payload in the cache under the request URL at the current time. -/
theorem execWithRetry_success_single (url ck : String) (ttl : ℕ)
    (r : HttpResponse) (rest : List HttpResponse) (st : ClientState)
    (hok : responseOk r = true) (httl : ¬(ttl = 0)) :
    execWithRetry false true url ck ttl (r :: rest) false st =
      { result := .ok r.body, sends := 1, auths := 0, waits := [],
        state := { st with cache := cacheSet st.cache url r.body st.now } } := by
  have h2 : 200 ≤ r.status ∧ r.status < 300 := by simpa [responseOk] using hok
  have h429 : ¬(r.status = 429) := by omega
  have h401 : ¬(r.status = 401) := by omega
  simp [execWithRetry, h429, h401, hok, httl]

/-- C9: for a GET with a nonzero TTL on a non-login endpoint,
(i) a cached entry younger than the TTL is returned as is, with no
transport send and no authentication, leaving the state untouched;
(ii) two GETs to the same endpoint within the TTL window issue exactly
one transport send in total: the first send stores the payload, the
second GET answers from the cache with zero sends even with an empty
transport script;
(iii) a GET finding only an entry at least as old as the TTL performs a
fresh transport send and overwrites the entry with the new payload at
the current time. -/
theorem makeRequest_cache_ttl (ep ck : String) (ttl : ℕ)
    (httl : ¬(ttl = 0)) (hep : ¬(ep = "/api/login/Basic")) :
    (∀ (rs : List HttpResponse) (st : ClientState) (d t : ℕ),
      cacheGet st.cache ep = some (d, t) → st.now - t < ttl →
      makeRequest true ep ttl ck rs st =
        { result := .ok d, sends := 0, auths := 0, waits := [], state := st }) ∧
    (∀ (st : ClientState) (r : HttpResponse) (n2 : ℕ),
      cacheGet st.cache ep = none → ¬(st.sessionCookies = "") →
      responseOk r = true → n2 - st.now < ttl →
      (makeRequest true ep ttl ck [r] st).sends = 1 ∧
      (makeRequest true ep ttl ck [r] st).result = .ok r.body ∧
      (makeRequest true ep ttl ck []
          { (makeRequest true ep ttl ck [r] st).state with now := n2 }).sends = 0 ∧
      (makeRequest true ep ttl ck []
          { (makeRequest true ep ttl ck [r] st).state with now := n2 }).result
        = .ok r.body) ∧
    (∀ (st : ClientState) (r : HttpResponse) (d t : ℕ),
      cacheGet st.cache ep = some (d, t) → ¬(st.now - t < ttl) →
      ¬(st.sessionCookies = "") → responseOk r = true →
      (makeRequest true ep ttl ck [r] st).sends = 1 ∧
      (makeRequest true ep ttl ck [r] st).result = .ok r.body ∧
      cacheGet (makeRequest true ep ttl ck [r] st).state.cache ep
        = some (r.body, st.now)) := by
  refine ⟨?_, ?_, ?_⟩
  · intro rs st d t hcg hlt
    simp [makeRequest, httl, hcg, hlt]
  · intro st r n2 hcg hsess hok hlt
    have h1 : makeRequest true ep ttl ck [r] st =
        { result := .ok r.body, sends := 1, auths := 0, waits := [],
          state := { st with cache := cacheSet st.cache ep r.body st.now } } := by
      simp only [makeRequest, httl, hcg, hep, hsess]
      simp [hep, hsess, execWithRetry_success_single ep ck ttl r [] st hok httl]
    refine ⟨by simp [h1], by simp [h1], ?_, ?_⟩
    · rw [h1]
      simp [makeRequest, httl, cacheGet_cacheSet, hlt]
    · rw [h1]
      simp [makeRequest, httl, cacheGet_cacheSet, hlt]
  · intro st r d t hcg hge hsess hok
    have h1 : makeRequest true ep ttl ck [r] st =
        { result := .ok r.body, sends := 1, auths := 0, waits := [],
          state := { st with cache := cacheSet st.cache ep r.body st.now } } := by
      simp only [makeRequest, httl, hcg, hge, hep, hsess]
      simp [hep, hsess, hge, execWithRetry_success_single ep ck ttl r [] st hok httl]
    exact ⟨by simp [h1], by simp [h1], by simp [h1, cacheGet_cacheSet]⟩

/-- Witness for C9, scenario (ii): two GETs within a 1000 ms TTL window
issue exactly one transport send; the second is answered from the cache
even though the transport script is empty. -/
theorem makeRequest_cache_ttl_witness :
    (makeRequest true "/api/meters/aggregates" 1000 "tok"
        [⟨200, none, none, 42⟩] ⟨"tok", [], 0⟩).sends = 1 ∧
    (makeRequest true "/api/meters/aggregates" 1000 "tok"
        [⟨200, none, none, 42⟩] ⟨"tok", [], 0⟩).result = .ok 42 ∧
    (makeRequest true "/api/meters/aggregates" 1000 "tok" []
        { (makeRequest true "/api/meters/aggregates" 1000 "tok"
            [⟨200, none, none, 42⟩] ⟨"tok", [], 0⟩).state with now := 500 }).sends = 0 ∧
    (makeRequest true "/api/meters/aggregates" 1000 "tok" []
        { (makeRequest true "/api/meters/aggregates" 1000 "tok"
            [⟨200, none, none, 42⟩] ⟨"tok", [], 0⟩).state with now := 500 }).result
      = .ok 42 :=
  (makeRequest_cache_ttl "/api/meters/aggregates" "tok" 1000
      (by decide) (by decide)).2.1
    ⟨"tok", [], 0⟩ ⟨200, none, none, 42⟩ 500 (by decide) (by decide)
    (by decide) (by decide)

/-!
## Claims about concurrency and teardown
-/

/-- C5: two concurrent requests that both observe an empty session store
issue two login POSTs, not one.  Under the cooperative schedule where
each request runs its ensureAuthenticated check before either login
response arrives, both checks see an empty session and each enters its
own `authenticate()` call, because ensureAuthenticated bypasses the
authInProgress single-flight guard of authenticateWithRateLimit.  This
refutes the claim that exactly one authentication call is issued. -/
theorem ensureAuthenticated_concurrent_double_login :
    (runSchedule "tok" [true, false, true, false] concInit).loginPosts = 2 ∧
    (runSchedule "tok" [true, false, true, false] concInit).pc1 = AuthPc.done ∧
    (runSchedule "tok" [true, false, true, false] concInit).pc2 = AuthPc.done := by
  decide

/-- C8: GridStatusAccessory.startPolling discards the handle returned by
`setInterval` and the class has no destroy method, so after teardown of
the accessory the polling tick still fires (and each tick calls the
Transport); the scheduler instance retains no timer handle, refuting the
claim.  For contrast, the PowerwallAccessory scheduler retains its
handle and its destroy does silence the tick. -/
theorem gridStatus_tick_fires_after_teardown :
    (gridStatusStartPolling ⟨0, []⟩).1.retainedHandle = none ∧
    tickFires (gridStatusTeardown (gridStatusStartPolling ⟨0, []⟩).1
      (gridStatusStartPolling ⟨0, []⟩).2) 0 = true ∧
    tickFires (powerwallDestroy (powerwallStartPolling ⟨0, []⟩).1
      (powerwallStartPolling ⟨0, []⟩).2).2 0 = false := by
  decide

end TeslaPowerwall
